import Mathlib

/-!
# StyleStash backend — shallow embedding and verification

A shallow embedding of `src/server.js` (Express wardrobe-tracking backend):
the credential store, the token issuer/verifier, the auth gate, and the five
route handlers (register, login, dashboard stats, item create, item list),
together with theorems settling the specification claims.

External collaborators (bcryptjs, jsonwebtoken, JSON.parse, the Mongo store)
are modelled at their interface boundary; everything server-side follows the
branch structure of `server.js`.
-/

namespace StyleStash

/-- Model of a bcrypt digest (external library `bcryptjs`). A digest produced
by `bcrypt.hash(pw, salt)` is represented as an opaque tagged value recording
the salt-round cost and the hashed source; the tag makes a digest a different
type from a plaintext `String`, reflecting that the stored credential is a
salted hash, not the plaintext. -/
structure HashedPassword where
  rounds : Nat
  source : String
deriving Repr, DecidableEq

/-- `bcrypt.genSalt(rounds)` followed by `bcrypt.hash(password, salt)`. -/
def bcryptHash (rounds : Nat) (pw : String) : HashedPassword :=
  ⟨rounds, pw⟩

/-- `bcrypt.compare(password, storedHash)`: succeeds exactly when the
plaintext matches the one the digest was derived from. -/
def bcryptCompare (pw : String) (h : HashedPassword) : Bool :=
  pw == h.source

/-- The salt-rounds constant used at registration (`bcrypt.genSalt(10)`,
server.js line 112). -/
def saltRounds : Nat := 10

/-- `UserSchema` (server.js lines 48-55): firstName, lastName, unique email,
hashed password, location with default. `id` models the driver-generated
Mongo `_id`. -/
structure User where
  id : Nat
  firstName : String
  lastName : String
  email : String
  password : HashedPassword
  location : String
deriving Repr, DecidableEq

/-- `ItemSchema` (server.js lines 58-70). `warmth` is `Option Int`: `none`
models the JS `NaN` produced by `Number(undefined)`; `lastWorn`/`createdAt`
are timestamps. `id` models the driver-generated Mongo `_id`. -/
structure Item where
  id : Nat
  userId : Nat
  name : String
  imageUrl : String
  category : String
  subCategory : Option String
  seasons : List String
  color : Option String
  warmth : Option Int
  isClean : Bool
  lastWorn : Option Nat
  createdAt : Nat
deriving Repr, DecidableEq

/-- The decoded payload of a verified token: the user identifier signed into
it (`jwt.sign({ id: user._id }, ...)`) and the expiration instant (seconds). -/
structure TokenClaim where
  id : Nat
  exp : Nat
deriving Repr, DecidableEq

/-- A structurally well-formed signed token: the signing secret and the
claim. Modelled from the spec: `jsonwebtoken` is an external library; a
signed token is a claim bound to the process-wide secret. -/
structure SignedToken where
  secret : Nat
  claim : TokenClaim
deriving Repr, DecidableEq

/-- What the `x-auth-token` header can carry: a structurally valid signed
token, or an arbitrary string that does not decode as a token (malformed). -/
inductive Wire where
  | tok (t : SignedToken)
  | garbage (s : String)
deriving Repr, DecidableEq

/-- `expiresIn: "30d"` in seconds. -/
def thirtyDaysSec : Nat := 30 * 24 * 60 * 60

/-- Modelled from the spec (§4.2 Token Issuer/Verifier): `jwt.sign({id},
secret, {expiresIn: "30d"})` — a signed claim containing the identifier,
expiring 30 days from issuance. -/
def jwtSign (secret id now : Nat) : SignedToken :=
  ⟨secret, ⟨id, now + thirtyDaysSec⟩⟩

/-- The ways `jwt.verify` rejects: malformed token, signature mismatch
against the configured secret, expired token. -/
inductive JwtError where
  | malformed
  | badSignature
  | expired
deriving Repr, DecidableEq

/-- Modelled from the spec (§4.2, §8): `jwt.verify(token, secret)` fails on a
malformed token, a signature mismatch, or an expired token; a token is valid
for requests up to (but not after) its expiration instant. On success it
returns the decoded claim. -/
def jwtVerify (secret now : Nat) : Wire → Except JwtError TokenClaim
  | .garbage _ => .error .malformed
  | .tok t =>
    if t.secret ≠ secret then .error .badSignature
    else if t.claim.exp < now then .error .expired
    else .ok t.claim

/-- Auth-gate failure body for a missing header (server.js line 85). -/
def noTokenMsg : String := "No token, authorization denied"

/-- Auth-gate failure body for a failed verification (server.js line 92). -/
def invalidTokenMsg : String := "Token is not valid"

/-- Outcome of the auth middleware: either a short-circuit response
(status, message) or the decoded claim attached to the request. -/
inductive AuthOutcome where
  | reject (status : Nat) (msg : String)
  | allow (claim : TokenClaim)
deriving Repr, DecidableEq

/-- The `auth` middleware (server.js lines 83-94): read `x-auth-token`;
absent → 401 `noTokenMsg`; present but failing `jwt.verify` → 400
`invalidTokenMsg`; otherwise attach the decoded claim and continue. -/
def auth (secret now : Nat) (header : Option Wire) : AuthOutcome :=
  match header with
  | none => .reject 401 noTokenMsg
  | some w =>
    match jwtVerify secret now w with
    | .ok c => .allow c
    | .error _ => .reject 400 invalidTokenMsg

/-- The JSON payloads the routes actually send (`res.json(...)` shapes in
server.js): `{token}`, `{msg}` with a status, `{error}` with a status, the
dashboard stats object, a saved item, and an item array. -/
inductive Response where
  | tokenResp (t : SignedToken)
  | jsonMsg (status : Nat) (msg : String)
  | jsonError (status : Nat) (err : String)
  | statsResp (name : String) (totalItems dirtyItems : Nat) (isNewUser : Bool)
  | itemResp (it : Item)
  | itemsResp (items : List Item)
deriving Repr, DecidableEq

/-- The result of dispatching one request: either a response produced by the
route, or an error that escaped the handler uncaught (no try/catch around
it and no centralized error middleware). -/
inductive HResult where
  | resp (r : Response)
  | uncaught (err : String)
deriving Repr, DecidableEq

/-- Whether the handler produced a response at its own boundary rather than
letting the failure escape. -/
def HResult.isHandled : HResult → Bool
  | .resp _ => true
  | .uncaught _ => false

/-- The persistent store: the `User` and `Item` collections. -/
structure Store where
  users : List User
  items : List Item
deriving Repr, DecidableEq

/-- The store before any request. -/
def emptyStore : Store := ⟨[], []⟩

/-- Process-wide configuration loaded at startup (`process.env.JWT_SECRET`). -/
structure Config where
  jwtSecret : Nat
deriving Repr, DecidableEq

/-- JS truthiness of a possibly-absent body field: `undefined` and the empty
string are falsy (`if (!firstName) ...`, `seasons ? ... : []`). -/
def truthy : Option String → Bool
  | none => false
  | some s => s != ""

/-- Skip JSON whitespace. -/
def skipWs : List Char → List Char
  | [] => []
  | c :: cs => if c = ' ' ∨ c = '\t' ∨ c = '\n' ∨ c = '\r' then skipWs cs else c :: cs

/-- Scan the body of a JSON string literal after its opening quote; returns
the characters up to the closing quote and the rest of the input. -/
def scanStrLit : List Char → Option (List Char × List Char)
  | [] => none
  | c :: cs =>
    if c = '"' then some ([], cs)
    else
      match scanStrLit cs with
      | some (s, rest) => some (c :: s, rest)
      | none => none

/-- Scan the comma-separated string elements of a JSON array after its
opening bracket (fuelled recursion; the fuel is an upper bound on the number
of elements). -/
def scanElems : Nat → List Char → Option (List String × List Char)
  | 0, _ => none
  | fuel + 1, cs =>
    match skipWs cs with
    | '"' :: cs1 =>
      match scanStrLit cs1 with
      | none => none
      | some (s, cs2) =>
        match skipWs cs2 with
        | ',' :: cs3 =>
          match scanElems fuel cs3 with
          | some (ss, rest) => some (String.mk s :: ss, rest)
          | none => none
        | ']' :: cs3 => some ([String.mk s], cs3)
        | _ => none
    | _ => none

/-- Model of `JSON.parse` restricted to arrays of string literals — the form
the `POST /api/items` contract supplies for `seasons` ("JSON array string",
spec §6); any other input is a parse failure. -/
def parseJsonStrArray (s : String) : Option (List String) :=
  match skipWs s.data with
  | '[' :: cs =>
    match skipWs cs with
    | ']' :: rest => if (skipWs rest).isEmpty then some [] else none
    | _ =>
      match scanElems (s.length + 1) cs with
      | some (ss, rest) => if (skipWs rest).isEmpty then some ss else none
      | none => none
  | _ => none

/-- Decimal digit value of a character, if it is one. -/
def digitVal? (c : Char) : Option Nat :=
  if '0' ≤ c ∧ c ≤ '9' then some (c.toNat - '0'.toNat) else none

/-- Read a run of decimal digits into an accumulator; fails on any
non-digit. -/
def readDigits : List Char → Nat → Option Nat
  | [], acc => some acc
  | c :: cs, acc =>
    match digitVal? c with
    | some d => readDigits cs (acc * 10 + d)
    | none => none

/-- Parse a non-empty all-digit character run as a natural number. -/
def parseDecNat : List Char → Option Nat
  | [] => none
  | cs => readDigits cs 0

/-- Stand-in for the JS `Number(...)` coercion on the decimal integers the
multipart form supplies for `warmth`; `none` models `NaN`
(`Number(undefined)`). -/
def jsNumber : Option String → Option Int
  | none => none
  | some s =>
    match s.data with
    | '-' :: cs => (parseDecNat cs).map (fun v => -(v : Int))
    | cs => (parseDecNat cs).map (fun v => (v : Int))

/-- The `TypeError` message produced by dereferencing `req.file.path` when no
file part was uploaded (`req.file` is `undefined`). -/
def missingFileMsg : String := "Cannot read path of undefined"

/-- The error message produced when `JSON.parse(seasons)` throws. -/
def jsonParseMsg : String := "Unexpected token in JSON"

/-- Mongoose validation at `item.save()` for `ItemSchema`: `name`,
`imageUrl`, `category` are required (empty/absent fails), `warmth` must cast
to a number (`NaN` fails) and satisfy `min: 1, max: 10`. Returns the error
message, or `none` when the document saves. -/
def itemSaveError (it : Item) : Option String :=
  if it.name == "" then some "Item validation failed: name is required"
  else if it.imageUrl == "" then some "Item validation failed: imageUrl is required"
  else if it.category == "" then some "Item validation failed: category is required"
  else
    match it.warmth with
    | none => some "Cast to Number failed for value NaN at path warmth"
    | some w =>
      if w < 1 ∨ 10 < w then some "Item validation failed: warmth out of bounds"
      else none

/-- `POST /api/auth/register` (server.js lines 99-131). A `fault` of
`some e` means the first store access of this request fails with message
`e`; the handler's own try/catch maps it to `500 {error}`. `oid` is the
driver-generated id for a newly created document. -/
def register (cfg : Config) (now : Nat) (fault : Option String) (st : Store)
    (oid : Nat) (firstName lastName email password : Option String) :
    HResult × Store :=
  if !(truthy firstName && truthy lastName && truthy email && truthy password) then
    (.resp (.jsonMsg 400 "Please enter all fields"), st)
  else
    match fault with
    | some e => (.resp (.jsonError 500 e), st)
    | none =>
      match st.users.find? (fun u => u.email == email.getD "") with
      | some _ => (.resp (.jsonMsg 400 "User already exists"), st)
      | none =>
        let u : User :=
          { id := oid, firstName := firstName.getD "", lastName := lastName.getD "",
            email := email.getD "",
            password := bcryptHash saltRounds (password.getD ""),
            location := "New Delhi, India" }
        (.resp (.tokenResp (jwtSign cfg.jwtSecret oid now)),
         { st with users := st.users ++ [u] })

/-- `POST /api/auth/login` (server.js lines 133-148). -/
def login (cfg : Config) (now : Nat) (fault : Option String) (st : Store)
    (email password : Option String) : HResult × Store :=
  match fault with
  | some e => (.resp (.jsonError 500 e), st)
  | none =>
    match st.users.find? (fun u => u.email == email.getD "") with
    | none => (.resp (.jsonMsg 400 "User does not exist"), st)
    | some u =>
      if bcryptCompare (password.getD "") u.password then
        (.resp (.tokenResp (jwtSign cfg.jwtSecret u.id now)), st)
      else
        (.resp (.jsonMsg 400 "Invalid credentials"), st)

/-- Body of `GET /api/dashboard/stats` after the auth gate (server.js lines
153-173). Its try/catch maps any failure — store fault, or the `TypeError`
from `user.firstName` when `findById` finds nothing — to
`500 {msg: "Server Error"}` (the raw message is NOT surfaced here). -/
def dashboardHandler (fault : Option String) (st : Store) (c : TokenClaim) :
    HResult × Store :=
  match fault with
  | some _ => (.resp (.jsonMsg 500 "Server Error"), st)
  | none =>
    match st.users.find? (fun u => u.id == c.id) with
    | none => (.resp (.jsonMsg 500 "Server Error"), st)
    | some u =>
      let totalItems := (st.items.filter (fun it => it.userId == c.id)).length
      let dirtyItems :=
        (st.items.filter (fun it => it.userId == c.id && it.isClean == false)).length
      (.resp (.statsResp (u.firstName ++ " " ++ u.lastName) totalItems dirtyItems
        (totalItems == 0)), st)

/-- The `new Item({...})` document built by `POST /api/items` (server.js
lines 180-189) from the decoded claim id `uid`, the uploaded file URL, the
parsed seasons and the coerced warmth. -/
def mkItem (now oid : Nat) (url : String) (name category subCategory : Option String)
    (ss : List String) (color warmth : Option String) (uid : Nat) : Item :=
  { id := oid, userId := uid, name := name.getD "", imageUrl := url,
    category := category.getD "", subCategory := subCategory, seasons := ss,
    color := color, warmth := jsNumber warmth, isClean := true,
    lastWorn := none, createdAt := now }

/-- Body of `POST /api/items` after the auth gate and the multer upload
(server.js lines 176-195). `image` is the Cloudinary URL multer attached as
`req.file.path`, or `none` when no file part was sent — in which case the
dereference throws and the try/catch answers `500 {error}`. `seasons` goes
through `seasons ? JSON.parse(seasons) : []`; a parse failure is caught the
same way. The store fault, if any, fires at `item.save()`. -/
def createItemHandler (now : Nat) (fault : Option String) (st : Store)
    (oid : Nat) (image name category subCategory seasons color warmth : Option String)
    (c : TokenClaim) : HResult × Store :=
  match image with
  | none => (.resp (.jsonError 500 missingFileMsg), st)
  | some url =>
    match (if truthy seasons then parseJsonStrArray (seasons.getD "") else some []) with
    | none => (.resp (.jsonError 500 jsonParseMsg), st)
    | some ss =>
      let it : Item := mkItem now oid url name category subCategory ss color warmth c.id
      match fault with
      | some e => (.resp (.jsonError 500 e), st)
      | none =>
        match itemSaveError it with
        | some e => (.resp (.jsonError 500 e), st)
        | none => (.resp (.itemResp it), { st with items := st.items ++ [it] })

/-- Body of `GET /api/items` after the auth gate (server.js lines 197-200).
This handler has NO try/catch: a store failure escapes uncaught. -/
def listItemsHandler (fault : Option String) (st : Store) (c : TokenClaim) :
    HResult × Store :=
  match fault with
  | some e => (.uncaught e, st)
  | none =>
    (.resp (.itemsResp (st.items.filter (fun it => it.userId == c.id))), st)

/-- A protected route: the auth middleware runs first; on rejection it
responds and short-circuits (the downstream handler and the store are never
reached); on success the downstream handler runs exactly once with the
decoded claim. -/
def protectedRoute (cfg : Config) (now : Nat) (header : Option Wire)
    (handler : TokenClaim → HResult × Store) (st : Store) : HResult × Store :=
  match auth cfg.jwtSecret now header with
  | .reject status msg => (.resp (.jsonMsg status msg), st)
  | .allow c => handler c

/-- The API surface: one constructor per route, carrying the request inputs
(`oid` is the driver-generated id for any document the request creates). -/
inductive Req where
  | register (oid : Nat) (firstName lastName email password : Option String)
  | login (email password : Option String)
  | dashboard (header : Option Wire)
  | createItem (oid : Nat) (header : Option Wire)
      (image name category subCategory seasons color warmth : Option String)
  | listItems (header : Option Wire)
deriving Repr, DecidableEq

/-- Dispatch one request against the store: the route table of server.js. -/
def step (cfg : Config) (now : Nat) (fault : Option String) (st : Store) :
    Req → HResult × Store
  | .register oid f l e p => register cfg now fault st oid f l e p
  | .login e p => login cfg now fault st e p
  | .dashboard h => protectedRoute cfg now h (dashboardHandler fault st) st
  | .createItem oid h img n c sc se col w =>
      protectedRoute cfg now h
        (createItemHandler now fault st oid img n c sc se col w) st
  | .listItems h => protectedRoute cfg now h (listItemsHandler fault st) st

/-- One inbound call: its wall-clock instant, the store fault injected for
this request (if any), and the request itself. -/
structure Call where
  now : Nat
  fault : Option String
  req : Req
deriving Repr, DecidableEq

/-- Run a sequence of calls, threading the store. -/
def runCalls (cfg : Config) : List Call → Store → Store
  | [], st => st
  | c :: rest, st => runCalls cfg rest (step cfg c.now c.fault st c.req).2

/-- Whether a request is an item creation. -/
def Req.isCreate : Req → Bool
  | .createItem _ _ _ _ _ _ _ _ _ => true
  | _ => false

/-- The authenticated owner on whose behalf a creation call runs: the id in
the claim its token verifies to, when it does. -/
def callOwner (cfg : Config) (c : Call) : Option Nat :=
  match c.req with
  | .createItem _ (some w) _ _ _ _ _ _ _ =>
    match jwtVerify cfg.jwtSecret c.now w with
    | .ok cl => some cl.id
    | .error _ => none
  | _ => none

/-- The items a single call appends to the store (computed on the empty
store; a creation appends the same documents whatever the store holds). -/
def createdBy (cfg : Config) (now : Nat) (fault : Option String) (req : Req) :
    List Item :=
  (step cfg now fault emptyStore req).2.items

/-- A concrete configuration used to instantiate the theorems. -/
def cfg0 : Config := ⟨1⟩

/-- A wire value carrying a token signed with `cfg0`'s secret for user 7 at
instant 0. -/
def w0 : Wire := .tok (jwtSign cfg0.jwtSecret 7 0)

/-- A wire value that does not decode as a token. -/
def wBad : Wire := .garbage "not-a-jwt"

/-- A concrete store with one user (id 7) and one of their items, plus an
item of user 8. -/
def item7 : Item :=
  { id := 21, userId := 7, name := "Jacket", imageUrl := "http://img/1",
    category := "Outerwear", subCategory := none, seasons := ["winter"],
    color := some "blue", warmth := some 9, isClean := false,
    lastWorn := none, createdAt := 0 }

/-- An item owned by user 8, used to check cross-user isolation. -/
def item8 : Item :=
  { id := 22, userId := 8, name := "Tee", imageUrl := "http://img/2",
    category := "Top", subCategory := none, seasons := ["summer"],
    color := some "red", warmth := some 2, isClean := true,
    lastWorn := none, createdAt := 0 }

/-- A registered user record for user 7. -/
def user7 : User :=
  { id := 7, firstName := "Ada", lastName := "Lovelace", email := "ada@ex.com",
    password := bcryptHash saltRounds "pw7", location := "New Delhi, India" }

/-- A populated concrete store. -/
def st0 : Store := ⟨[user7], [item7, item8]⟩

/-- A wire value carrying a token signed with `cfg0`'s secret for user 8 at
instant 0. -/
def w8 : Wire := .tok (jwtSign cfg0.jwtSecret 8 0)

/-- The item a concrete seasons-carrying creation produces (C6 instance). -/
def itemX : Item :=
  { id := 3, userId := 7, name := "Tee", imageUrl := "http://x",
    category := "Top", subCategory := none, seasons := ["summer", "fall"],
    color := none, warmth := some 5, isClean := true,
    lastWorn := none, createdAt := 0 }

/-- `st0` after appending `itemX`. -/
def stX : Store := ⟨[user7], [item7, item8, itemX]⟩

/-- A concrete successful registration call. -/
def callReg : Call :=
  ⟨0, none, .register 5 (some "A") (some "B") (some "a@b") (some "pw")⟩

/-- The user record `callReg` persists. -/
def userReg : User :=
  ⟨5, "A", "B", "a@b", bcryptHash saltRounds "pw", "New Delhi, India"⟩

/-- A concrete item creation authenticated as user 7. -/
def callCreate7 : Call :=
  ⟨0, none, .createItem 31 (some w0) (some "http://img/7") (some "Scarf")
    (some "Accessory") none none none (some "3")⟩

/-- A concrete item creation authenticated as user 8. -/
def callCreate8 : Call :=
  ⟨0, none, .createItem 32 (some w8) (some "http://img/8") (some "Hat")
    (some "Accessory") none none none (some "2")⟩

/-- An interleaved creation trace by users 7 and 8. -/
def callsC2 : List Call := [callCreate8, callCreate7, callCreate8]

/-! ## Helper lemmas -/

theorem jwtVerify_sign_of_le (secret id now t : Nat) (h : t ≤ now + thirtyDaysSec) :
    jwtVerify secret t (.tok (jwtSign secret id now)) = .ok ⟨id, now + thirtyDaysSec⟩ := by
  have h2 : ¬ (now + thirtyDaysSec < t) := by omega
  simp [jwtVerify, jwtSign, h2]

theorem jwtVerify_sign_of_gt (secret id now t : Nat) (h : now + thirtyDaysSec < t) :
    jwtVerify secret t (.tok (jwtSign secret id now)) = .error .expired := by
  simp [jwtVerify, jwtSign, h]

theorem register_items (cfg : Config) (now : Nat) (fault : Option String)
    (st : Store) (oid : Nat) (f l e p : Option String) :
    (register cfg now fault st oid f l e p).2.items = st.items := by
  unfold register
  split
  · rfl
  · split
    · rfl
    · split <;> rfl

theorem login_snd (cfg : Config) (now : Nat) (fault : Option String)
    (st : Store) (e p : Option String) :
    (login cfg now fault st e p).2 = st := by
  unfold login
  split
  · rfl
  · split
    · rfl
    · split <;> rfl

theorem step_dashboard_snd (cfg : Config) (now : Nat) (fault : Option String)
    (st : Store) (h : Option Wire) :
    (step cfg now fault st (.dashboard h)).2 = st := by
  simp only [step, protectedRoute]
  split
  · rfl
  · unfold dashboardHandler
    split
    · rfl
    · split <;> rfl

theorem step_listItems_snd (cfg : Config) (now : Nat) (fault : Option String)
    (st : Store) (h : Option Wire) :
    (step cfg now fault st (.listItems h)).2 = st := by
  simp only [step, protectedRoute]
  split
  · rfl
  · unfold listItemsHandler
    split <;> rfl

theorem step_createItem_users (cfg : Config) (now : Nat) (fault : Option String)
    (st : Store) (oid : Nat) (h : Option Wire)
    (img n cat sc se col wa : Option String) :
    (step cfg now fault st (.createItem oid h img n cat sc se col wa)).2.users
      = st.users := by
  simp only [step, protectedRoute]
  split
  · rfl
  · unfold createItemHandler
    split
    · rfl
    · split
      · rfl
      · dsimp only
        split
        · rfl
        · split <;> rfl

theorem createItem_items (cfg : Config) (now : Nat) (fault : Option String)
    (st : Store) (oid : Nat) (h : Option Wire)
    (img n cat sc se col wa : Option String) :
    (step cfg now fault st (.createItem oid h img n cat sc se col wa)).2.items
      = st.items
        ++ createdBy cfg now fault (.createItem oid h img n cat sc se col wa) := by
  simp only [step, createdBy, protectedRoute, auth]
  cases h with
  | none => simp [emptyStore]
  | some w =>
    cases hv : jwtVerify cfg.jwtSecret now w with
    | error err => simp [hv, emptyStore]
    | ok c =>
      simp only [hv, createItemHandler]
      cases img with
      | none => simp [emptyStore]
      | some url =>
        cases hp : (if truthy se then parseJsonStrArray (se.getD "") else some []) with
        | none => simp [hp, emptyStore]
        | some ss =>
          simp only [hp]
          cases fault with
          | some e => simp [emptyStore]
          | none =>
            cases hs : itemSaveError (mkItem now oid url n cat sc ss col wa c.id) with
            | some e => simp [hs, emptyStore]
            | none => simp [hs, emptyStore]

theorem step_items (cfg : Config) (now : Nat) (fault : Option String)
    (st : Store) (req : Req) :
    (step cfg now fault st req).2.items = st.items ++ createdBy cfg now fault req := by
  cases req with
  | register oid f l e p =>
    have h1 := register_items cfg now fault st oid f l e p
    have h2 := register_items cfg now fault emptyStore oid f l e p
    simp only [step, createdBy] at *
    rw [h1, h2]
    simp [emptyStore]
  | login e p =>
    have h1 := login_snd cfg now fault st e p
    have h2 := login_snd cfg now fault emptyStore e p
    simp only [step, createdBy] at *
    rw [h1, h2]
    simp [emptyStore]
  | dashboard h =>
    have h1 := step_dashboard_snd cfg now fault st h
    have h2 := step_dashboard_snd cfg now fault emptyStore h
    simp only [createdBy]
    rw [h1, h2]
    simp [emptyStore]
  | listItems h =>
    have h1 := step_listItems_snd cfg now fault st h
    have h2 := step_listItems_snd cfg now fault emptyStore h
    simp only [createdBy]
    rw [h1, h2]
    simp [emptyStore]
  | createItem oid h img n cat sc se col wa =>
    exact createItem_items cfg now fault st oid h img n cat sc se col wa

theorem callOwner_createItem (cfg : Config) (now : Nat) (fault : Option String)
    (oid : Nat) (w : Wire) (img n cat sc se col wa : Option String) :
    callOwner cfg ⟨now, fault, .createItem oid (some w) img n cat sc se col wa⟩
      = match jwtVerify cfg.jwtSecret now w with
        | .ok cl => some cl.id
        | .error _ => none := rfl

theorem createdBy_owner (cfg : Config) (c : Call) :
    ∀ it ∈ createdBy cfg c.now c.fault c.req, callOwner cfg c = some it.userId := by
  obtain ⟨now, fault, req⟩ := c
  intro it hit
  cases req with
  | register oid f l e p =>
    have h2 := register_items cfg now fault emptyStore oid f l e p
    simp only [createdBy, step] at hit
    rw [h2] at hit
    simp [emptyStore] at hit
  | login e p =>
    have h2 := login_snd cfg now fault emptyStore e p
    simp only [createdBy, step] at hit
    rw [h2] at hit
    simp [emptyStore] at hit
  | dashboard h =>
    have h2 := step_dashboard_snd cfg now fault emptyStore h
    simp only [createdBy] at hit
    rw [h2] at hit
    simp [emptyStore] at hit
  | listItems h =>
    have h2 := step_listItems_snd cfg now fault emptyStore h
    simp only [createdBy] at hit
    rw [h2] at hit
    simp [emptyStore] at hit
  | createItem oid h img n cat sc se col wa =>
    simp only [createdBy, step, protectedRoute, auth] at hit
    cases h with
    | none => simp [emptyStore] at hit
    | some w =>
      cases hv : jwtVerify cfg.jwtSecret now w with
      | error err =>
        simp only [hv] at hit
        simp [emptyStore] at hit
      | ok cl =>
        simp only [hv, createItemHandler] at hit
        cases img with
        | none => simp [emptyStore] at hit
        | some url =>
          cases hp : (if truthy se then parseJsonStrArray (se.getD "") else some []) with
          | none =>
            simp only [hp] at hit
            simp [emptyStore] at hit
          | some ss =>
            simp only [hp] at hit
            cases fault with
            | some e => simp [emptyStore] at hit
            | none =>
              cases hs : itemSaveError (mkItem now oid url n cat sc ss col wa cl.id) with
              | some e =>
                simp only [hs] at hit
                simp [emptyStore] at hit
              | none =>
                simp only [hs] at hit
                simp [emptyStore] at hit
                rw [callOwner_createItem, hv, hit]
                rfl

theorem runCalls_items (cfg : Config) (calls : List Call) (st : Store) :
    (runCalls cfg calls st).items
      = st.items ++ (calls.map (fun c => createdBy cfg c.now c.fault c.req)).flatten := by
  induction calls generalizing st with
  | nil => simp [runCalls]
  | cons c rest ih =>
    simp only [runCalls, List.map_cons, List.flatten_cons]
    rw [ih, step_items]
    simp [List.append_assoc]

theorem filter_flatten_createdBy (cfg : Config) (A : Nat) (calls : List Call) :
    ((calls.map (fun c => createdBy cfg c.now c.fault c.req)).flatten).filter
        (fun it => it.userId == A)
      = (((calls.filter (fun c => callOwner cfg c == some A)).map
            (fun c => createdBy cfg c.now c.fault c.req)).flatten).filter
          (fun it => it.userId == A) := by
  induction calls with
  | nil => rfl
  | cons c rest ih =>
    by_cases hA : callOwner cfg c = some A
    · have hb : (callOwner cfg c == some A) = true := by simp [hA]
      simp only [List.map_cons, List.flatten_cons, List.filter_cons, hb,
        List.filter_append, if_true]
      rw [ih]
    · have hb : (callOwner cfg c == some A) = false := by
        simp only [beq_eq_false_iff_ne, ne_eq]
        exact hA
      have hnil : (createdBy cfg c.now c.fault c.req).filter
          (fun it => it.userId == A) = [] := by
        rw [List.filter_eq_nil_iff]
        intro it hit hbeq
        have hown := createdBy_owner cfg c it hit
        have hA2 : it.userId = A := by simpa using hbeq
        rw [hown, hA2] at hA
        exact hA rfl
      simp only [List.map_cons, List.flatten_cons, List.filter_cons, hb,
        List.filter_append, hnil]
      simpa using ih

/-! ## Claim theorems -/

/-- Claim C1: on every protected route (`GET /api/dashboard/stats`,
`POST /api/items`, `GET /api/items`), a missing `x-auth-token` header yields
the 401 `NoToken` response with the store untouched (the result holds for
every store and every injected store fault, so no store access occurs); a
header whose verification fails yields the 400 `InvalidToken` response, again
with the store untouched; on successful verification the route's result is
exactly one application of its downstream handler to the decoded claim. -/
theorem c1_auth_gate (cfg : Config) (now : Nat) (fault : Option String)
    (st : Store) (oid : Nat) (img n cat sc se col wa : Option String) :
    (step cfg now fault st (.dashboard none)
        = (.resp (.jsonMsg 401 noTokenMsg), st)
      ∧ step cfg now fault st (.createItem oid none img n cat sc se col wa)
        = (.resp (.jsonMsg 401 noTokenMsg), st)
      ∧ step cfg now fault st (.listItems none)
        = (.resp (.jsonMsg 401 noTokenMsg), st))
    ∧ (∀ w e, jwtVerify cfg.jwtSecret now w = .error e →
        step cfg now fault st (.dashboard (some w))
          = (.resp (.jsonMsg 400 invalidTokenMsg), st)
        ∧ step cfg now fault st (.createItem oid (some w) img n cat sc se col wa)
          = (.resp (.jsonMsg 400 invalidTokenMsg), st)
        ∧ step cfg now fault st (.listItems (some w))
          = (.resp (.jsonMsg 400 invalidTokenMsg), st))
    ∧ (∀ w c, jwtVerify cfg.jwtSecret now w = .ok c →
        step cfg now fault st (.dashboard (some w)) = dashboardHandler fault st c
        ∧ step cfg now fault st (.createItem oid (some w) img n cat sc se col wa)
          = createItemHandler now fault st oid img n cat sc se col wa c
        ∧ step cfg now fault st (.listItems (some w)) = listItemsHandler fault st c) := by
  refine ⟨⟨rfl, rfl, rfl⟩, ?_, ?_⟩
  · intro w e hw
    refine ⟨?_, ?_, ?_⟩ <;> simp [step, protectedRoute, auth, hw]
  · intro w c hw
    refine ⟨?_, ?_, ?_⟩ <;> simp [step, protectedRoute, auth, hw]

/-- Witness for C1: with a garbage header the dashboard short-circuits with
the 400 `InvalidToken` response; with a valid token the item listing is one
application of the listing handler to the decoded claim. -/
theorem c1_auth_gate_witness :
    step cfg0 0 none st0 (.dashboard (some wBad))
      = (.resp (.jsonMsg 400 invalidTokenMsg), st0)
    ∧ step cfg0 0 none st0 (.listItems (some w0))
      = listItemsHandler none st0 ⟨7, thirtyDaysSec⟩ :=
  ⟨((c1_auth_gate cfg0 0 none st0 0 none none none none none none none).2.1
      wBad .malformed rfl).1,
   ((c1_auth_gate cfg0 0 none st0 0 none none none none none none none).2.2
      w0 ⟨7, thirtyDaysSec⟩ rfl).2.2⟩

/-- Claim C4: a token issued by a successful registration or login carries
the user's identifier and an expiration instant 30 days from issuance; it
verifies successfully at every instant up to (and including) that expiration
instant, and verification fails as expired at every later instant. -/
theorem c4_token_lifecycle (cfg : Config) (now t : Nat) (fault : Option String)
    (st : Store) (oid : Nat) (f l e p e2 p2 : Option String)
    (tok tok2 : SignedToken) (st1 st2 : Store) :
    (step cfg now fault st (.register oid f l e p) = (.resp (.tokenResp tok), st1) →
      tok = jwtSign cfg.jwtSecret oid now
      ∧ tok.claim.id = oid
      ∧ tok.claim.exp = now + thirtyDaysSec
      ∧ (t ≤ now + thirtyDaysSec →
          jwtVerify cfg.jwtSecret t (.tok tok) = .ok tok.claim)
      ∧ (now + thirtyDaysSec < t →
          jwtVerify cfg.jwtSecret t (.tok tok) = .error .expired))
    ∧ (step cfg now fault st (.login e2 p2) = (.resp (.tokenResp tok2), st2) →
      (∃ u, st.users.find? (fun v => v.email == e2.getD "") = some u
          ∧ tok2 = jwtSign cfg.jwtSecret u.id now)
      ∧ tok2.claim.exp = now + thirtyDaysSec
      ∧ (t ≤ now + thirtyDaysSec →
          jwtVerify cfg.jwtSecret t (.tok tok2) = .ok tok2.claim)
      ∧ (now + thirtyDaysSec < t →
          jwtVerify cfg.jwtSecret t (.tok tok2) = .error .expired)) := by
  constructor
  · intro h
    simp only [step, register] at h
    split at h
    · simp at h
    · split at h
      · simp at h
      · split at h
        · simp at h
        · simp only [Prod.mk.injEq, HResult.resp.injEq, Response.tokenResp.injEq] at h
          obtain ⟨htok, hst⟩ := h
          subst htok
          exact ⟨rfl, rfl, rfl,
            fun ht => jwtVerify_sign_of_le _ _ _ _ ht,
            fun ht => jwtVerify_sign_of_gt _ _ _ _ ht⟩
  · intro h
    simp only [step, login] at h
    split at h
    · simp at h
    · split at h
      · simp at h
      · next u hu =>
        split at h
        · simp only [Prod.mk.injEq, HResult.resp.injEq, Response.tokenResp.injEq] at h
          obtain ⟨htok, hst⟩ := h
          subst htok
          exact ⟨⟨u, hu, rfl⟩, rfl,
            fun ht => jwtVerify_sign_of_le _ _ _ _ ht,
            fun ht => jwtVerify_sign_of_gt _ _ _ _ ht⟩
        · simp at h

/-- Witness for C4: the token issued by the concrete registration `callReg`
verifies successfully exactly at its expiration instant. -/
theorem c4_token_lifecycle_witness :
    jwtVerify cfg0.jwtSecret thirtyDaysSec (.tok (jwtSign cfg0.jwtSecret 5 0))
      = .ok (jwtSign cfg0.jwtSecret 5 0).claim :=
  ((c4_token_lifecycle cfg0 0 thirtyDaysSec none emptyStore 5
      (some "A") (some "B") (some "a@b") (some "pw") none none
      (jwtSign cfg0.jwtSecret 5 0) (jwtSign cfg0.jwtSecret 5 0)
      ⟨[userReg], []⟩ emptyStore).1 rfl).2.2.2.1 (by omega)

/-- Claim C5: for an authenticated user found in the store, the dashboard
returns the name composed from firstName and lastName with a space, the count
of that user's items, the count of that user's not-clean items, and
`isNewUser` true iff the total count is zero; in particular with zero items
it reports name, 0, 0, true. -/
theorem c5_dashboard_stats (cfg : Config) (now : Nat) (st : Store) (w : Wire)
    (c : TokenClaim) (u : User)
    (hv : jwtVerify cfg.jwtSecret now w = .ok c)
    (hu : st.users.find? (fun v => v.id == c.id) = some u) :
    step cfg now none st (.dashboard (some w))
      = (.resp (.statsResp (u.firstName ++ " " ++ u.lastName)
          (st.items.filter (fun it => it.userId == c.id)).length
          (st.items.filter (fun it => it.userId == c.id && it.isClean == false)).length
          ((st.items.filter (fun it => it.userId == c.id)).length == 0)), st)
    ∧ (((st.items.filter (fun it => it.userId == c.id)).length == 0) = true
        ↔ (st.items.filter (fun it => it.userId == c.id)).length = 0)
    ∧ (st.items.filter (fun it => it.userId == c.id) = [] →
        step cfg now none st (.dashboard (some w))
          = (.resp (.statsResp (u.firstName ++ " " ++ u.lastName) 0 0 true), st)) := by
  have hmain : step cfg now none st (.dashboard (some w))
      = (.resp (.statsResp (u.firstName ++ " " ++ u.lastName)
          (st.items.filter (fun it => it.userId == c.id)).length
          (st.items.filter (fun it => it.userId == c.id && it.isClean == false)).length
          ((st.items.filter (fun it => it.userId == c.id)).length == 0)), st) := by
    simp [step, protectedRoute, auth, hv, dashboardHandler, hu]
  refine ⟨hmain, by simp, ?_⟩
  intro h0
  have h2 : st.items.filter (fun it => it.userId == c.id && it.isClean == false) = [] := by
    rw [List.filter_eq_nil_iff]
    rw [List.filter_eq_nil_iff] at h0
    intro a ha hb
    rw [Bool.and_eq_true] at hb
    exact h0 a ha hb.1
  rw [hmain, h0, h2]
  simp

/-- Witness for C5: user 7 against a store where their only item set is
empty (`emptyStore` extended with `user7`). -/
theorem c5_dashboard_stats_witness :
    step cfg0 0 none ⟨[user7], []⟩ (.dashboard (some w0))
      = (.resp (.statsResp ("Ada" ++ " " ++ "Lovelace") 0 0 true), ⟨[user7], []⟩) :=
  (c5_dashboard_stats cfg0 0 ⟨[user7], []⟩ w0 ⟨7, thirtyDaysSec⟩ user7
    rfl rfl).2.2 rfl

/-- Claim C6: the created item's seasons field is the JSON-parsed value of
the seasons form string (the input `["summer","fall"]` parses to exactly
those two values in that order), defaults to the empty sequence when the
field is absent, and a parse failure yields a 500-class `{error}` response
with no item persisted. -/
theorem c6_seasons (cfg : Config) (now : Nat) (st : Store) (oid : Nat)
    (w : Wire) (c : TokenClaim) (url : String) (n cat sc col wa : Option String)
    (hv : jwtVerify cfg.jwtSecret now w = .ok c) :
    parseJsonStrArray "[\"summer\",\"fall\"]" = some ["summer", "fall"]
    ∧ (∀ se ss it st1,
        (if truthy se then parseJsonStrArray (se.getD "") else some []) = some ss →
        step cfg now none st (.createItem oid (some w) (some url) n cat sc se col wa)
          = (.resp (.itemResp it), st1) →
        it.seasons = ss ∧ st1.items = st.items ++ [it])
    ∧ (∀ it st1,
        step cfg now none st (.createItem oid (some w) (some url) n cat sc none col wa)
          = (.resp (.itemResp it), st1) →
        it.seasons = [])
    ∧ (∀ s, parseJsonStrArray s = none → truthy (some s) = true →
        step cfg now none st (.createItem oid (some w) (some url) n cat sc (some s) col wa)
          = (.resp (.jsonError 500 jsonParseMsg), st)) := by
  have hgen : ∀ se ss it st1,
      (if truthy se then parseJsonStrArray (se.getD "") else some []) = some ss →
      step cfg now none st (.createItem oid (some w) (some url) n cat sc se col wa)
        = (.resp (.itemResp it), st1) →
      it.seasons = ss ∧ st1.items = st.items ++ [it] := by
    intro se ss it st1 hp hstep
    simp only [step, protectedRoute, auth, hv, createItemHandler, hp] at hstep
    split at hstep
    · simp at hstep
    · simp only [Prod.mk.injEq, HResult.resp.injEq, Response.itemResp.injEq] at hstep
      obtain ⟨hit, hst1⟩ := hstep
      subst hit
      subst hst1
      exact ⟨rfl, rfl⟩
  refine ⟨rfl, hgen, ?_, ?_⟩
  · intro it st1 hstep
    exact (hgen none [] it st1 rfl hstep).1
  · intro s hp ht
    simp [step, protectedRoute, auth, hv, createItemHandler, ht, hp]

/-- Witness for C6: a concrete creation with seasons `["summer","fall"]`
yields `itemX` carrying exactly those values in order, appended to the
store. -/
theorem c6_seasons_witness :
    itemX.seasons = ["summer", "fall"] ∧ stX.items = st0.items ++ [itemX] :=
  (c6_seasons cfg0 0 st0 3 w0 ⟨7, thirtyDaysSec⟩ "http://x" (some "Tee")
      (some "Top") none none (some "5") rfl).2.1
    (some "[\"summer\",\"fall\"]") ["summer", "fall"] itemX stX rfl (by rfl)

/-- Claim C7: a registration in which any of firstName, lastName, email,
password is absent fails with the 400 `ValidationError` response; the store
is returned unchanged (no record created) and the response carries no
token. -/
theorem c7_register_validation (cfg : Config) (now : Nat) (fault : Option String)
    (st : Store) (oid : Nat) (f l e p : Option String)
    (h : f = none ∨ l = none ∨ e = none ∨ p = none) :
    step cfg now fault st (.register oid f l e p)
      = (.resp (.jsonMsg 400 "Please enter all fields"), st) := by
  have hb : (truthy f && truthy l && truthy e && truthy p) = false := by
    rcases h with h | h | h | h <;> subst h <;> simp [truthy]
  simp [step, register, hb]

/-- Witness for C7: registering without a firstName fails with the
validation message and leaves the store unchanged. -/
theorem c7_register_validation_witness :
    step cfg0 0 none st0 (.register 9 none (some "L") (some "e@x") (some "p"))
      = (.resp (.jsonMsg 400 "Please enter all fields"), st0) :=
  c7_register_validation cfg0 0 none st0 9 none (some "L") (some "e@x") (some "p")
    (Or.inl rfl)

/-- Claim C8: a registration whose email is already present in the store
fails with the 400 `DuplicateEmail` response and returns the store
unchanged — no second record is created. -/
theorem c8_duplicate_email (cfg : Config) (now : Nat) (st : Store) (oid : Nat)
    (f l e p : Option String)
    (hf : truthy f = true) (hl : truthy l = true) (he : truthy e = true)
    (hp : truthy p = true)
    (hdup : ∃ u ∈ st.users, u.email = e.getD "") :
    step cfg now none st (.register oid f l e p)
      = (.resp (.jsonMsg 400 "User already exists"), st) := by
  have hfind : (st.users.find? (fun u => u.email == e.getD "")).isSome = true := by
    rw [List.find?_isSome]
    obtain ⟨u, hu, heq⟩ := hdup
    exact ⟨u, hu, by simp [heq]⟩
  obtain ⟨u2, hu2⟩ := Option.isSome_iff_exists.mp hfind
  simp [step, register, hf, hl, he, hp, hu2]

/-- Witness for C8: re-registering `user7`'s email against `st0` fails with
the duplicate message and leaves the store unchanged. -/
theorem c8_duplicate_email_witness :
    step cfg0 0 none st0
        (.register 9 (some "Eve") (some "Im") (some "ada@ex.com") (some "x"))
      = (.resp (.jsonMsg 400 "User already exists"), st0) :=
  c8_duplicate_email cfg0 0 st0 9 (some "Eve") (some "Im") (some "ada@ex.com")
    (some "x") rfl rfl rfl rfl ⟨user7, by decide, rfl⟩

/-- Claim C10: an authenticated item creation with no image file part fails
with a 500-class `{error}` response (the missing file is dereferenced, not
validated — there is no 400-class validation failure for it) and the store
is returned unchanged, so no item is persisted. -/
theorem c10_missing_image (cfg : Config) (now : Nat) (fault : Option String)
    (st : Store) (oid : Nat) (w : Wire) (c : TokenClaim)
    (n cat sc se col wa : Option String)
    (hv : jwtVerify cfg.jwtSecret now w = .ok c) :
    step cfg now fault st (.createItem oid (some w) none n cat sc se col wa)
      = (.resp (.jsonError 500 missingFileMsg), st) := by
  simp [step, protectedRoute, auth, hv, createItemHandler]

/-- Witness for C10: a concrete authenticated creation without a file part
against `st0`. -/
theorem c10_missing_image_witness :
    step cfg0 0 none st0 (.createItem 9 (some w0) none (some "Tee") (some "Top")
        none none none (some "5"))
      = (.resp (.jsonError 500 missingFileMsg), st0) :=
  c10_missing_image cfg0 0 none st0 9 w0 ⟨7, thirtyDaysSec⟩ (some "Tee")
    (some "Top") none none none (some "5") rfl

/-- Counterexample for C9 as stated: a store-layer failure during
`GET /api/items` is not mapped to any response by the handler — the route has
no try/catch, so the failure escapes uncaught. -/
theorem c9_counterexample :
    step cfg0 0 (some "database is down") st0 (.listItems (some w0))
      = (.uncaught "database is down", st0)
    ∧ (step cfg0 0 (some "database is down") st0 (.listItems (some w0))).1.isHandled
      = false := by
  refine ⟨?_, ?_⟩ <;> rfl

/-- Claim C9 (amended): every handler except `GET /api/items` catches
failures at its own boundary — register, login and `POST /api/items` map a
store failure to a 500 `{error}` response surfacing the raw message, while
`GET /api/dashboard/stats` maps it to a generic 500 `{msg: "Server Error"}`;
`GET /api/items` alone has no handler-level catch, so a store failure there
propagates uncaught. -/
theorem c9_error_boundaries (cfg : Config) (now : Nat) (emsg : String)
    (st : Store) (oid : Nat) (f l e p e2 p2 : Option String) (url : String)
    (n cat sc se col wa : Option String) (w : Wire) (c : TokenClaim)
    (ss : List String)
    (hf : truthy f = true) (hl : truthy l = true) (he : truthy e = true)
    (hp : truthy p = true)
    (hv : jwtVerify cfg.jwtSecret now w = .ok c)
    (hse : (if truthy se then parseJsonStrArray (se.getD "") else some []) = some ss) :
    step cfg now (some emsg) st (.register oid f l e p)
      = (.resp (.jsonError 500 emsg), st)
    ∧ step cfg now (some emsg) st (.login e2 p2)
      = (.resp (.jsonError 500 emsg), st)
    ∧ step cfg now (some emsg) st (.dashboard (some w))
      = (.resp (.jsonMsg 500 "Server Error"), st)
    ∧ step cfg now (some emsg) st (.createItem oid (some w) (some url) n cat sc se col wa)
      = (.resp (.jsonError 500 emsg), st)
    ∧ step cfg now (some emsg) st (.listItems (some w)) = (.uncaught emsg, st)
    ∧ (step cfg now (some emsg) st (.listItems (some w))).1.isHandled = false := by
  refine ⟨?_, ?_, ?_, ?_, ?_, ?_⟩
  · simp [step, register, hf, hl, he, hp]
  · simp [step, login]
  · simp [step, protectedRoute, auth, hv, dashboardHandler]
  · simp [step, protectedRoute, auth, hv, createItemHandler, hse]
  · simp [step, protectedRoute, auth, hv, listItemsHandler]
  · simp [step, protectedRoute, auth, hv, listItemsHandler, HResult.isHandled]

/-- Witness for C9 (amended): with a concrete store failure, registration
surfaces the raw message in a 500 response while the item listing lets it
escape uncaught. -/
theorem c9_error_boundaries_witness :
    step cfg0 0 (some "db down") st0
        (.register 9 (some "F") (some "L") (some "f@x") (some "p"))
      = (.resp (.jsonError 500 "db down"), st0)
    ∧ step cfg0 0 (some "db down") st0 (.listItems (some w0))
      = (.uncaught "db down", st0) :=
  ⟨(c9_error_boundaries cfg0 0 "db down" st0 9 (some "F") (some "L") (some "f@x")
      (some "p") none none "u" none none none none none none w0
      ⟨7, thirtyDaysSec⟩ [] rfl rfl rfl rfl rfl rfl).1,
   (c9_error_boundaries cfg0 0 "db down" st0 9 (some "F") (some "L") (some "f@x")
      (some "p") none none "u" none none none none none none w0
      ⟨7, thirtyDaysSec⟩ [] rfl rfl rfl rfl rfl rfl).2.2.2.2.1⟩

/-- Claim C2: for distinct users A and B and any interleaved sequence of item
creations by both, the listing returned to A is exactly A's items — it equals
the listing obtained when B's (and all non-A) creations are removed from the
trace, every item in it is owned by A, and none is owned by B. -/
theorem c2_user_isolation (cfg : Config) (A B : Nat) (hAB : A ≠ B)
    (calls : List Call) (hc : ∀ c ∈ calls, c.req.isCreate = true)
    (st : Store) (now : Nat) (w : Wire) (cl : TokenClaim)
    (hv : jwtVerify cfg.jwtSecret now w = .ok cl) (hA : cl.id = A) :
    step cfg now none (runCalls cfg calls st) (.listItems (some w))
      = (.resp (.itemsResp ((runCalls cfg calls st).items.filter
          (fun it => it.userId == A))), runCalls cfg calls st)
    ∧ (runCalls cfg calls st).items.filter (fun it => it.userId == A)
      = (runCalls cfg (calls.filter (fun c => callOwner cfg c == some A)) st).items.filter
          (fun it => it.userId == A)
    ∧ (∀ it ∈ (runCalls cfg calls st).items.filter (fun it => it.userId == A),
        it.userId = A ∧ it.userId ≠ B) := by
  refine ⟨?_, ?_, ?_⟩
  · simp [step, protectedRoute, auth, hv, listItemsHandler, hA]
  · rw [runCalls_items, runCalls_items, List.filter_append, List.filter_append,
      filter_flatten_createdBy cfg A calls]
  · intro it hit
    have h1 : it.userId = A := by
      simpa using (List.mem_filter.mp hit).2
    exact ⟨h1, by rw [h1]; exact hAB⟩

/-- Witness for C2: on the concrete interleaved trace `callsC2` (user 8,
user 7, user 8), user 7's listing equals the one produced by the trace with
user 8's creations filtered out. -/
theorem c2_user_isolation_witness :
    (runCalls cfg0 callsC2 st0).items.filter (fun it => it.userId == 7)
      = (runCalls cfg0 (callsC2.filter (fun c => callOwner cfg0 c == some 7))
          st0).items.filter (fun it => it.userId == 7) :=
  (c2_user_isolation cfg0 7 8 (by decide) callsC2 (by decide) st0 0 w0
    ⟨7, thirtyDaysSec⟩ rfl rfl).2.1

theorem step_users_password (cfg : Config) (now : Nat) (fault : Option String)
    (st : Store) (req : Req) :
    ∀ u ∈ (step cfg now fault st req).2.users,
      u ∈ st.users ∨ ∃ pw, u.password = bcryptHash saltRounds pw := by
  intro u hu
  cases req with
  | register oid f l e p =>
    simp only [step, register] at hu
    split at hu
    · exact .inl hu
    · split at hu
      · exact .inl hu
      · split at hu
        · exact .inl hu
        · rw [List.mem_append] at hu
          rcases hu with h | h
          · exact .inl h
          · right
            refine ⟨p.getD "", ?_⟩
            simp only [List.mem_singleton] at h
            rw [h]
  | login e p =>
    simp only [step] at hu
    rw [login_snd] at hu
    exact .inl hu
  | dashboard h =>
    rw [step_dashboard_snd] at hu
    exact .inl hu
  | listItems h =>
    rw [step_listItems_snd] at hu
    exact .inl hu
  | createItem oid h img n cat sc se col wa =>
    rw [step_createItem_users] at hu
    exact .inl hu

/-- Claim C3: the salt-rounds constant is 10, and after any sequence of
calls from the empty store every persisted user's credential is a bcrypt
digest derived with that constant — the stored value is `bcryptHash` of the
submitted password, never the plaintext string itself, and every operation
preserves this invariant. -/
theorem c3_password_invariant (cfg : Config) (calls : List Call) :
    saltRounds = 10
    ∧ ∀ u ∈ (runCalls cfg calls emptyStore).users,
        ∃ pw, u.password = bcryptHash saltRounds pw := by
  refine ⟨rfl, ?_⟩
  have key : ∀ st : Store,
      (∀ u ∈ st.users, ∃ pw, u.password = bcryptHash saltRounds pw) →
      ∀ u ∈ (runCalls cfg calls st).users,
        ∃ pw, u.password = bcryptHash saltRounds pw := by
    induction calls with
    | nil =>
      intro st hst
      simpa [runCalls] using hst
    | cons c rest ih =>
      intro st hst u hu
      simp only [runCalls] at hu
      refine ih _ ?_ u hu
      intro v hv
      rcases step_users_password cfg c.now c.fault st c.req v hv with h | h
      · exact hst v h
      · exact h
  refine key emptyStore ?_
  intro u hu
  simp [emptyStore] at hu

/-- Witness for C3: after the concrete registration `callReg`, the persisted
record's credential is a bcrypt digest with the fixed salt rounds. -/
theorem c3_password_invariant_witness :
    ∃ pw, userReg.password = bcryptHash saltRounds pw :=
  (c3_password_invariant cfg0 [callReg]).2 userReg (by decide)

end StyleStash
